import Mathlib

/-!
Shallow embedding of `src/server.py`, the NullChat / Voidagon Discord-to-web
bridge.  The mutable module-level state of the Python program (the message
cache, the webhook cache, the MongoDB collections) is passed explicitly;
`time.time()` is modelled as a rational-valued instant supplied to each
operation, constant for the duration of one handler.
-/

namespace NullChat

/-! ### Message cache (server.py lines 53-55 and 459-496)

`message_cache` maps a channel id to a `deque(maxlen=MAX_CACHED_MESSAGES)`;
`on_message` creates the deque lazily on a channel's first message and
appends the freshly built message record.  A Python `deque` with `maxlen`
drops its leftmost (oldest) element when an append would exceed the bound.
The cache is generic in the stored record type, as `deque` never inspects
its elements. -/

def MAX_CACHED_MESSAGES : Nat := 50

def dequeAppend {α : Type} (maxlen : Nat) (buf : List α) (m : α) : List α :=
  let b := buf ++ [m]
  if maxlen < b.length then b.drop (b.length - maxlen) else b

/-- State of one conversation's buffer after it was created (empty) and the
messages `msgs` arrived in order: `on_message` appends each in turn. -/
def cacheAfterAppends {α : Type} (msgs : List α) : List α :=
  msgs.foldl (dequeAppend MAX_CACHED_MESSAGES) []

theorem dequeAppend_eq_drop {α : Type} (cap : Nat) (buf : List α) (m : α) :
    dequeAppend cap buf m = (buf ++ [m]).drop ((buf.length + 1) - cap) := by
  unfold dequeAppend
  simp only [List.length_append, List.length_singleton]
  by_cases hc : cap < buf.length + 1
  · simp [hc]
  · have h0 : buf.length + 1 - cap = 0 := by omega
    simp [hc, h0]

theorem dequeAppend_length_le {α : Type} (cap : Nat) (buf : List α) (m : α)
    (h : buf.length ≤ cap) : (dequeAppend cap buf m).length ≤ cap := by
  rw [dequeAppend_eq_drop]
  simp only [List.length_drop, List.length_append, List.length_singleton]
  omega

theorem foldl_dequeAppend_eq_drop {α : Type} (cap : Nat) (msgs : List α) :
    ∀ buf : List α, buf.length ≤ cap →
      msgs.foldl (dequeAppend cap) buf =
        (buf ++ msgs).drop ((buf.length + msgs.length) - cap) := by
  induction msgs with
  | nil =>
    intro buf h
    simp only [List.foldl_nil, List.append_nil, List.length_nil, Nat.add_zero]
    have h0 : buf.length - cap = 0 := by omega
    rw [h0, List.drop_zero]
  | cons m rest ih =>
    intro buf h
    have hd : buf.length + 1 - cap ≤ (buf ++ [m]).length := by
      simp only [List.length_append, List.length_singleton]; omega
    have hb' : (dequeAppend cap buf m).length ≤ cap := dequeAppend_length_le cap buf m h
    have hlen : (dequeAppend cap buf m).length = buf.length + 1 - (buf.length + 1 - cap) := by
      rw [dequeAppend_eq_drop]
      simp only [List.length_drop, List.length_append, List.length_singleton]
    rw [List.foldl_cons, ih _ hb', dequeAppend_eq_drop]
    rw [← List.drop_append_of_le_length hd, List.drop_drop]
    have hidx : buf.length + 1 - cap +
        ((List.drop (buf.length + 1 - cap) (buf ++ [m])).length + rest.length - cap) =
        buf.length + (m :: rest).length - cap := by
      simp only [List.length_drop, List.length_append, List.length_cons,
        List.length_nil]
      omega
    rw [hidx]
    congr 1
    simp

theorem cacheAfterAppends_eq_drop {α : Type} (msgs : List α) :
    cacheAfterAppends msgs = msgs.drop (msgs.length - MAX_CACHED_MESSAGES) := by
  unfold cacheAfterAppends
  have h := foldl_dequeAppend_eq_drop MAX_CACHED_MESSAGES msgs [] (by simp)
  simpa using h

/-- Claim C2: the per-conversation cache never retains more than 50 messages; an
append at capacity evicts exactly the single oldest entry before inserting
the new one (strict FIFO); and after more than 50 appends the cache holds
exactly the 50 most recently appended messages in arrival order. -/
theorem c2_cache_bounded_fifo {α : Type} (msgs buf : List α) (m : α) :
    (cacheAfterAppends msgs).length ≤ MAX_CACHED_MESSAGES ∧
    (buf.length = MAX_CACHED_MESSAGES →
      dequeAppend MAX_CACHED_MESSAGES buf m = buf.tail ++ [m]) ∧
    (MAX_CACHED_MESSAGES < msgs.length →
      cacheAfterAppends msgs = msgs.drop (msgs.length - MAX_CACHED_MESSAGES)) := by
  refine ⟨?_, ?_, fun _ => cacheAfterAppends_eq_drop msgs⟩
  · rw [cacheAfterAppends_eq_drop]
    simp only [List.length_drop]
    omega
  · intro hb
    rw [dequeAppend_eq_drop, hb]
    have : MAX_CACHED_MESSAGES + 1 - MAX_CACHED_MESSAGES = 1 := by omega
    rw [this]
    rcases buf with _ | ⟨x, rest⟩
    · simp only [List.length_nil] at hb
      exact absurd hb (by decide)
    · simp

/-- Witness for C2 at a concrete run: 60 appends leave exactly the last 50,
and an append to a full buffer of 50 drops only the head. -/
theorem c2_cache_bounded_fifo_witness :
    MAX_CACHED_MESSAGES < (List.range 60).length ∧
    (List.range 50).length = MAX_CACHED_MESSAGES ∧
    cacheAfterAppends (List.range 60) =
      (List.range 60).drop ((List.range 60).length - MAX_CACHED_MESSAGES) ∧
    dequeAppend MAX_CACHED_MESSAGES (List.range 50) 99 = (List.range 50).tail ++ [99] :=
  ⟨by decide, by decide,
   (c2_cache_bounded_fifo (List.range 60) (List.range 50) 99).2.2 (by decide),
   (c2_cache_bounded_fifo (List.range 60) (List.range 50) 99).2.1 (by decide)⟩

/-! ### Read endpoint: GET /api/channels/:id/messages (server.py lines 1049-1063)

`get_messages` parses `limit` (default 10), caps it with `min(limit, 50)`,
answers `{'messages': []}` when the channel has no cache entry, and otherwise
returns `list(message_cache[channel_id])[-limit:]`.  `pyTailSlice` is the
exact semantics of the Python slice `l[-limit:]` for an arbitrary integer
`limit`: a negative start index is clamped as `max(len - limit, 0)`, while a
non-negative start index (which arises when `limit ≤ 0`) is clamped as
`min(-limit, len)`. -/

def pyTailSlice {α : Type} (l : List α) (limit : Int) : List α :=
  if 0 < limit then l.drop (l.length - limit.toNat)
  else l.drop ((min (-limit) (l.length : Int)).toNat)

def cacheLookup {α : Type} (cache : List (String × List α)) (channelId : String) :
    Option (List α) :=
  (cache.find? (fun p => p.1 == channelId)).map (fun p => p.2)

def get_messages {α : Type} (cache : List (String × List α)) (channelId : String)
    (limitReq : Int) : List α :=
  let lim := min limitReq 50
  match cacheLookup cache channelId with
  | none => []
  | some msgs => pyTailSlice msgs lim

/-- Counterexample to claim C4: with one cached message and requested count `n = 0`,
the route returns that message (the Python slice `l[-0:]` is the whole list),
not the `min(0, 1, 50) = 0` messages the claim promises. -/
theorem c4_limit_zero_counterexample :
    get_messages [("c", [(7 : Nat)])] "c" 0 = [7] ∧
    (get_messages [("c", [(7 : Nat)])] "c" 0).length ≠ min (min 0 1) 50 := by
  constructor
  · rfl
  · decide

/-- Claim C4, amended to positive requested counts: for every requested count
`n ≥ 1`, the route returns the most recent `min(n, size, 50)` cached messages
of the conversation, as a suffix of the arrival-ordered buffer (hence
oldest-first), with `n` capped at 50; a conversation with no cache entry
yields the empty sequence, never an error. -/
theorem c4_read_last {α : Type} (cache : List (String × List α))
    (channelId : String) (n : Int) (hn : 1 ≤ n) :
    (cacheLookup cache channelId = none → get_messages cache channelId n = []) ∧
    (∀ msgs : List α, cacheLookup cache channelId = some msgs →
      get_messages cache channelId n = msgs.drop (msgs.length - min n.toNat 50) ∧
      (get_messages cache channelId n).length = min (min n.toNat 50) msgs.length) := by
  constructor
  · intro h
    simp [get_messages, h]
  · intro msgs h
    have hlim : (0 : Int) < min n 50 := by omega
    have htn : (min n 50).toNat = min n.toNat 50 := by omega
    have hres : get_messages cache channelId n =
        msgs.drop (msgs.length - min n.toNat 50) := by
      simp only [get_messages, h]
      rw [pyTailSlice, if_pos hlim, htn]
    refine ⟨hres, ?_⟩
    rw [hres]
    simp only [List.length_drop]
    omega

/-- Witness for C4: a conversation holding three messages queried with
`n = 2` yields the last two, and an unknown conversation yields `[]`. -/
theorem c4_read_last_witness :
    (1 : Int) ≤ 2 ∧
    cacheLookup [("c", [(1 : Nat), 2, 3])] "c" = some [1, 2, 3] ∧
    get_messages [("c", [(1 : Nat), 2, 3])] "c" 2 =
      [1, 2, 3].drop ([(1 : Nat), 2, 3].length - min (Int.toNat 2) 50) ∧
    cacheLookup ([] : List (String × List Nat)) "c" = none ∧
    get_messages ([] : List (String × List Nat)) "c" 2 = [] :=
  ⟨by decide, by decide,
   ((c4_read_last [("c", [(1 : Nat), 2, 3])] "c" 2 (by decide)).2
     [1, 2, 3] (by decide)).1,
   by decide,
   (c4_read_last ([] : List (String × List Nat)) "c" 2 (by decide)).1 (by decide)⟩

/-! ### Webhook sink resolver (server.py lines 57-58 and 433-450)

`get_or_create_webhook` checks `webhooks_cache`, otherwise awaits
`channel.webhooks()`, picks the first hook whose `user` equals `bot.user`,
otherwise awaits `channel.create_webhook(name="Voidagon Bridge")`, then
stores the result in `webhooks_cache` and returns it.  The platform calls
are inputs here: `existing` is what `channel.webhooks()` yields and
`create` is the platform's response to a creation request; a raised
exception is an `Except.error`, which propagates before the cache
assignment runs, so the cache comes back unchanged. -/

structure Webhook where
  whId : Nat
  user : Nat
  name : String
deriving DecidableEq

def WEBHOOK_NAME : String := "Voidagon Bridge"

def webhookCacheLookup (cache : List (Nat × Webhook)) (channelId : Nat) :
    Option Webhook :=
  (cache.find? (fun p => p.1 == channelId)).map (fun p => p.2)

def get_or_create_webhook (cache : List (Nat × Webhook)) (channelId : Nat)
    (existing : List Webhook) (botUser : Nat)
    (create : String → Except String Webhook) :
    Except String Webhook × List (Nat × Webhook) :=
  match webhookCacheLookup cache channelId with
  | some wh => (.ok wh, cache)
  | none =>
    match existing.find? (fun wh => wh.user == botUser) with
    | some wh => (.ok wh, (channelId, wh) :: cache)
    | none =>
      match create WEBHOOK_NAME with
      | .ok wh => (.ok wh, (channelId, wh) :: cache)
      | .error e => (.error e, cache)

/-- Claim C8: the resolver returns the cached sink when present; otherwise it
selects an existing platform sink owned by the bot identity when one exists,
else it creates one under the fixed name "Voidagon Bridge"; the resolved sink
is cached; and when creation fails the error surfaces and the cache is left
unchanged (no failure value is cached). -/
theorem c8_resolver_algorithm (cache : List (Nat × Webhook)) (channelId : Nat)
    (existing : List Webhook) (botUser : Nat)
    (create : String → Except String Webhook) :
    (∀ wh, webhookCacheLookup cache channelId = some wh →
      get_or_create_webhook cache channelId existing botUser create = (.ok wh, cache)) ∧
    (webhookCacheLookup cache channelId = none →
      (∀ wh, existing.find? (fun w => w.user == botUser) = some wh →
        get_or_create_webhook cache channelId existing botUser create =
          (.ok wh, (channelId, wh) :: cache)) ∧
      (existing.find? (fun w => w.user == botUser) = none →
        (∀ wh, create WEBHOOK_NAME = .ok wh →
          get_or_create_webhook cache channelId existing botUser create =
            (.ok wh, (channelId, wh) :: cache)) ∧
        (∀ e, create WEBHOOK_NAME = .error e →
          get_or_create_webhook cache channelId existing botUser create =
            (.error e, cache)))) := by
  refine ⟨?_, ?_⟩
  · intro wh h
    simp [get_or_create_webhook, h]
  · intro hc
    refine ⟨?_, ?_⟩
    · intro wh h
      simp [get_or_create_webhook, hc, h]
    · intro hf
      refine ⟨?_, ?_⟩
      · intro wh h
        simp [get_or_create_webhook, hc, hf, h]
      · intro e h
        simp [get_or_create_webhook, hc, hf, h]

/-- Witness for C8 at concrete inputs: an empty cache, no bot-owned existing
hook, and a platform that grants creation; then the same with a platform
that denies creation. -/
theorem c8_resolver_algorithm_witness :
    webhookCacheLookup [] 5 = none ∧
    ([⟨9, 3, "other"⟩] : List Webhook).find? (fun w => w.user == 7) = none ∧
    (fun _ : String => (Except.ok (⟨1, 7, WEBHOOK_NAME⟩ : Webhook) : Except String Webhook))
      WEBHOOK_NAME = .ok ⟨1, 7, WEBHOOK_NAME⟩ ∧
    get_or_create_webhook [] 5 [⟨9, 3, "other"⟩] 7
      (fun _ => .ok ⟨1, 7, WEBHOOK_NAME⟩) = (.ok ⟨1, 7, WEBHOOK_NAME⟩, [(5, ⟨1, 7, WEBHOOK_NAME⟩)]) ∧
    get_or_create_webhook [] 5 [⟨9, 3, "other"⟩] 7
      (fun _ => .error "denied") = (.error "denied", []) :=
  ⟨rfl, rfl, rfl,
   (((c8_resolver_algorithm [] 5 [⟨9, 3, "other"⟩] 7
      (fun _ => .ok ⟨1, 7, WEBHOOK_NAME⟩)).2 rfl).2 rfl).1 ⟨1, 7, WEBHOOK_NAME⟩ rfl,
   (((c8_resolver_algorithm [] 5 [⟨9, 3, "other"⟩] 7
      (fun _ => .error "denied")).2 rfl).2 rfl).2 "denied" rfl⟩

/-! ### Concurrent first-time resolution (claim C1)

`get_or_create_webhook` holds no lock and does not re-check the cache after
its awaits; in the asyncio event loop every `await` is a suspension point at
which another caller of the same coroutine may run.  For a first-time
conversation (nothing cached, the platform holding no bot-owned hooks) each
caller's execution splits into three atomic blocks:

  * `start`    — read `webhooks_cache` (miss), issue `channel.webhooks()`;
  * `queried`  — resume with the empty hook list, find no bot-owned hook,
                 issue `channel.create_webhook(...)` (the platform receives a
                 creation request and allocates a fresh handle);
  * `creating` — resume with the created hook, write it to `webhooks_cache`,
                 return it.

`raceRun` interleaves two such callers under an explicit schedule (`true`
steps caller A, `false` steps caller B). -/

inductive ResolvePC where
  | start
  | queried
  | creating (handle : Nat)
  | done (handle : Nat)
deriving DecidableEq

structure RaceState where
  cache : Option Nat
  createCount : Nat
  nextHandle : Nat
  taskA : ResolvePC
  taskB : ResolvePC
deriving DecidableEq

def resolveStep (cache : Option Nat) (createCount nextHandle : Nat)
    (pc : ResolvePC) : Option Nat × Nat × Nat × ResolvePC :=
  match pc with
  | .start =>
    match cache with
    | some w => (cache, createCount, nextHandle, .done w)
    | none => (cache, createCount, nextHandle, .queried)
  | .queried => (cache, createCount + 1, nextHandle + 1, .creating nextHandle)
  | .creating w => (some w, createCount, nextHandle, .done w)
  | .done w => (cache, createCount, nextHandle, .done w)

def raceStep (s : RaceState) (stepA : Bool) : RaceState :=
  if stepA then
    let r := resolveStep s.cache s.createCount s.nextHandle s.taskA
    { cache := r.1, createCount := r.2.1, nextHandle := r.2.2.1,
      taskA := r.2.2.2, taskB := s.taskB }
  else
    let r := resolveStep s.cache s.createCount s.nextHandle s.taskB
    { cache := r.1, createCount := r.2.1, nextHandle := r.2.2.1,
      taskA := s.taskA, taskB := r.2.2.2 }

def raceRun (sched : List Bool) : RaceState :=
  sched.foldl raceStep
    { cache := none, createCount := 0, nextHandle := 0,
      taskA := .start, taskB := .start }

/-- Claim C1: under the alternating schedule A,B,A,B,A,B two concurrent first-time
resolutions of the same conversation issue two creation requests to the
platform and the two callers finish with distinct sink handles, while a
serialized schedule A,A,A,B issues exactly one request and hands both
callers the same handle. -/
theorem c1_duplicate_sink_creation :
    (raceRun [true, false, true, false, true, false]).createCount = 2 ∧
    (raceRun [true, false, true, false, true, false]).taskA = .done 0 ∧
    (raceRun [true, false, true, false, true, false]).taskB = .done 1 ∧
    (raceRun [true, true, true, false]).createCount = 1 ∧
    (raceRun [true, true, true, false]).taskA = .done 0 ∧
    (raceRun [true, true, true, false]).taskB = .done 0 := by
  decide

/-! ### Sessions (server.py lines 379-417 and 944-954)

A session document holds `token`, `username`, `expiry`, `created_at` and
`last_used`; `create_session` sets `expiry` 24 hours past the current time.
The successive `time.time()` reads inside one handler are modelled as the
single instant `now`.  `find_one` / `delete_one` / `update_one` act on the
first matching document, as in MongoDB. -/

structure Session where
  token : String
  username : String
  expiry : ℚ
  created_at : ℚ
  last_used : ℚ
deriving DecidableEq

abbrev SessionStore := List Session

def SESSION_TTL : ℚ := 24 * 60 * 60

def mkSession (username token : String) (now : ℚ) : Session :=
  { token := token, username := username, expiry := now + SESSION_TTL,
    created_at := now, last_used := now }

/-- Translation of `create_session`: inserts the new document and returns
`(token, expiry)`. -/
def create_session (store : SessionStore) (username token : String) (now : ℚ) :
    (String × ℚ) × SessionStore :=
  ((token, now + SESSION_TTL), store ++ [mkSession username token now])

def find_one_session (store : SessionStore) (tok : String) : Option Session :=
  store.find? (fun s => s.token == tok)

def delete_one_session (store : SessionStore) (tok : String) : SessionStore :=
  store.eraseP (fun s => s.token == tok)

def set_last_used (store : SessionStore) (tok : String) (now : ℚ) : SessionStore :=
  match store with
  | [] => []
  | s :: rest =>
    if s.token == tok then { s with last_used := now } :: rest
    else s :: set_last_used rest tok now

/-- Token-lookup core of `verify_user_token` (lines 387-402): fetch the
session, lazily delete and reject it when `time.time() > expiry`, otherwise
record `last_used` and return the fetched document. -/
def verify_token (store : SessionStore) (tok : String) (now : ℚ) :
    Option Session × SessionStore :=
  match find_one_session store tok with
  | none => (none, store)
  | some s =>
    if s.expiry < now then (none, delete_one_session store tok)
    else (some s, set_last_used store tok now)

structure HttpRequest where
  authorization : Option String
  queryArgs : List (String × String)
deriving DecidableEq

/-- Semantics of Python `s.startswith(pre)`, on the character sequences. -/
def pyStartsWith (s pre : String) : Bool :=
  pre.toList.isPrefixOf s.toList

def replaceAllAux (pat rep : List Char) : Nat → List Char → List Char
  | 0, s => s
  | _ + 1, [] => []
  | fuel + 1, c :: rest =>
    if pat.isPrefixOf (c :: rest) then
      rep ++ replaceAllAux pat rep fuel ((c :: rest).drop pat.length)
    else c :: replaceAllAux pat rep fuel rest

/-- Semantics of Python `s.replace(pat, rep)` for a non-empty `pat`:
every non-overlapping occurrence, scanned left to right, is replaced. -/
def pyReplace (s pat rep : String) : String :=
  String.mk (replaceAllAux pat.toList rep.toList s.toList.length s.toList)

/-- Translation of `verify_user_token` (lines 379-402): only the
`Authorization: Bearer` header is consulted; query parameters play no part. -/
def verify_user_token (store : SessionStore) (req : HttpRequest) (now : ℚ) :
    Option Session × SessionStore :=
  match req.authorization with
  | none => (none, store)
  | some auth =>
    if pyStartsWith auth "Bearer " then
      verify_token store (pyReplace auth "Bearer " "") now
    else (none, store)

/-- Guard shared by every protected route:
`if not session: return jsonify({'error': 'Unauthorized'}), 401`. -/
def route_auth_check (store : SessionStore) (req : HttpRequest) (now : ℚ) :
    Option (Nat × String) :=
  match (verify_user_token store req now).1 with
  | none => some (401, "Unauthorized")
  | some _ => none

theorem find_one_set_last_used (store : SessionStore) (tok : String) (now : ℚ) :
    find_one_session (set_last_used store tok now) tok =
      (find_one_session store tok).map (fun s => { s with last_used := now }) := by
  induction store with
  | nil => rfl
  | cons s rest ih =>
    by_cases h : s.token == tok
    · simp [set_last_used, find_one_session, List.find?_cons, h]
    · simp only [set_last_used, if_neg h]
      simp only [find_one_session, List.find?_cons, h] at ih ⊢
      simpa using ih

/-- Claim C5: while `now ≤ expiry` (up to and including the expiry instant) a
stored session's token is accepted, its `last_used` is set to the access
time with `expiry` (and every other field) unchanged; strictly after the
expiry instant the token is rejected. -/
theorem c5_session_expiry_boundary (store : SessionStore) (tok : String)
    (now : ℚ) (s : Session) (hfind : find_one_session store tok = some s) :
    (now ≤ s.expiry →
      (verify_token store tok now).1 = some s ∧
      find_one_session (verify_token store tok now).2 tok =
        some { s with last_used := now }) ∧
    (s.expiry < now → (verify_token store tok now).1 = none) := by
  constructor
  · intro hle
    have hnot : ¬ s.expiry < now := not_lt.mpr hle
    constructor
    · simp [verify_token, hfind, hnot]
    · simp [verify_token, hfind, hnot, find_one_set_last_used, hfind]
  · intro hlt
    simp [verify_token, hfind, hlt]

/-- Witness for C5 at a concrete store: access at the exact expiry instant
is accepted and refreshes only `last_used`; access one unit later is
rejected. -/
theorem c5_session_expiry_boundary_witness :
    find_one_session [⟨"t1", "alice", 100, 0, 0⟩] "t1" =
      some ⟨"t1", "alice", 100, 0, 0⟩ ∧
    (verify_token [⟨"t1", "alice", 100, 0, 0⟩] "t1" 100).1 =
      some ⟨"t1", "alice", 100, 0, 0⟩ ∧
    find_one_session (verify_token [⟨"t1", "alice", 100, 0, 0⟩] "t1" 100).2 "t1" =
      some ⟨"t1", "alice", 100, 0, 100⟩ ∧
    (verify_token [⟨"t1", "alice", 100, 0, 0⟩] "t1" 101).1 = none :=
  ⟨by decide,
   ((c5_session_expiry_boundary [⟨"t1", "alice", 100, 0, 0⟩] "t1" 100
      ⟨"t1", "alice", 100, 0, 0⟩ (by decide)).1 (by norm_num)).1,
   ((c5_session_expiry_boundary [⟨"t1", "alice", 100, 0, 0⟩] "t1" 100
      ⟨"t1", "alice", 100, 0, 0⟩ (by decide)).1 (by norm_num)).2,
   (c5_session_expiry_boundary [⟨"t1", "alice", 100, 0, 0⟩] "t1" 101
      ⟨"t1", "alice", 100, 0, 0⟩ (by decide)).2 (by norm_num)⟩

/-- Counterexample to claim C7: a request carrying a 6-digit code as the `?code=`
query parameter but no Authorization header is rejected with
`401 {"error": "Unauthorized"}` even against a store holding a live
session — `verify_user_token` never consults query parameters, so no
quick-code path exists. -/
theorem c7_quick_code_counterexample :
    verify_user_token [⟨"t1", "alice", 100, 0, 0⟩]
      ⟨none, [("code", "123456")]⟩ 5 = (none, [⟨"t1", "alice", 100, 0, 0⟩]) ∧
    route_auth_check [⟨"t1", "alice", 100, 0, 0⟩]
      ⟨none, [("code", "123456")]⟩ 5 = some (401, "Unauthorized") := by
  constructor <;> rfl

/-- Claim C7, amended: authentication accepts only a bearer token — looked up,
checked against its expiry, the session deleted and the request rejected
when expired; query-parameter quick codes are never consulted; a request
with no `Bearer` credential, or whose token fails the check, yields
`401 Unauthorized` with body `{"error": "Unauthorized"}`. -/
theorem c7_bearer_only_auth (store : SessionStore) (args : List (String × String))
    (now : ℚ) (auth tok : String) (s : Session) :
    (verify_user_token store ⟨none, args⟩ now = (none, store)) ∧
    (¬ pyStartsWith auth "Bearer " →
      verify_user_token store ⟨some auth, args⟩ now = (none, store)) ∧
    (pyStartsWith auth "Bearer " →
      verify_user_token store ⟨some auth, args⟩ now =
        verify_token store (pyReplace auth "Bearer " "") now) ∧
    (find_one_session store tok = none → verify_token store tok now = (none, store)) ∧
    (find_one_session store tok = some s → s.expiry < now →
      verify_token store tok now = (none, delete_one_session store tok)) ∧
    ((verify_user_token store ⟨some auth, args⟩ now).1 = none →
      route_auth_check store ⟨some auth, args⟩ now = some (401, "Unauthorized")) := by
  refine ⟨rfl, ?_, ?_, ?_, ?_, ?_⟩
  · intro h
    simp [verify_user_token, h]
  · intro h
    simp [verify_user_token, h]
  · intro h
    simp [verify_token, h]
  · intro hf hlt
    simp [verify_token, hf, hlt]
  · intro h
    simp [route_auth_check, h]

/-- Witness for C7 at concrete inputs: a well-formed bearer request routes
to the token check, an expired token is rejected with its session deleted,
and the rejection surfaces as `401 {"error": "Unauthorized"}`. -/
theorem c7_bearer_only_auth_witness :
    ¬ (pyStartsWith "Basic xyz" "Bearer ") ∧
    verify_user_token [⟨"t1", "alice", 100, 0, 0⟩] ⟨some "Basic xyz", []⟩ 5 =
      (none, [⟨"t1", "alice", 100, 0, 0⟩]) ∧
    (pyStartsWith "Bearer t1" "Bearer ") ∧
    verify_user_token [⟨"t1", "alice", 100, 0, 0⟩] ⟨some "Bearer t1", []⟩ 200 =
      verify_token [⟨"t1", "alice", 100, 0, 0⟩] (pyReplace "Bearer t1" "Bearer " "") 200 ∧
    find_one_session [⟨"t1", "alice", 100, 0, 0⟩] "t1" =
      some ⟨"t1", "alice", 100, 0, 0⟩ ∧
    verify_token [⟨"t1", "alice", 100, 0, 0⟩] "t1" 200 =
      (none, delete_one_session [⟨"t1", "alice", 100, 0, 0⟩] "t1") ∧
    route_auth_check [⟨"t1", "alice", 100, 0, 0⟩] ⟨some "Basic xyz", []⟩ 5 =
      some (401, "Unauthorized") :=
  ⟨by decide,
   (c7_bearer_only_auth [⟨"t1", "alice", 100, 0, 0⟩] [] 5 "Basic xyz" "t1"
      ⟨"t1", "alice", 100, 0, 0⟩).2.1 (by decide),
   by decide,
   (c7_bearer_only_auth [⟨"t1", "alice", 100, 0, 0⟩] [] 200 "Bearer t1" "t1"
      ⟨"t1", "alice", 100, 0, 0⟩).2.2.1 (by decide),
   by decide,
   (c7_bearer_only_auth [⟨"t1", "alice", 100, 0, 0⟩] [] 200 "Bearer t1" "t1"
      ⟨"t1", "alice", 100, 0, 0⟩).2.2.2.2.1 (by decide) (by norm_num),
   (c7_bearer_only_auth [⟨"t1", "alice", 100, 0, 0⟩] [] 5 "Basic xyz" "t1"
      ⟨"t1", "alice", 100, 0, 0⟩).2.2.2.2.2 (by decide)⟩

theorem mem_set_last_used (store : SessionStore) (tok : String) (now : ℚ) :
    ∀ s' ∈ set_last_used store tok now, ∃ s ∈ store,
      s'.token = s.token ∧ s'.username = s.username ∧
      s'.expiry = s.expiry ∧ s'.created_at = s.created_at := by
  induction store with
  | nil => intro s' h; simp [set_last_used] at h
  | cons s rest ih =>
    intro s' h
    by_cases hs : s.token == tok
    · rw [set_last_used, if_pos hs] at h
      rcases List.mem_cons.mp h with h | h
      · exact ⟨s, List.mem_cons_self s rest, by simp [h]⟩
      · exact ⟨s', List.mem_cons_of_mem s h, rfl, rfl, rfl, rfl⟩
    · rw [set_last_used, if_neg hs] at h
      rcases List.mem_cons.mp h with h | h
      · exact ⟨s, List.mem_cons_self s rest, by simp [h]⟩
      · obtain ⟨t, ht, hfields⟩ := ih s' h
        exact ⟨t, List.mem_cons_of_mem s ht, hfields⟩

/-- Claim C10: a created session's expiry is exactly 86400 seconds past its
creation instant; `create_session` (called by both login and successful
verification) inserts exactly that session; token authentication
(`verify_token`) either deletes a session or changes only `last_used`,
preserving every surviving session's token, username, expiry and creation
time; and logout's `delete_one` only removes documents. -/
theorem c10_session_ttl_invariant (store : SessionStore)
    (username token tok : String) (now : ℚ) :
    ((mkSession username token now).expiry =
      (mkSession username token now).created_at + 86400) ∧
    (create_session store username token now =
      ((token, now + 86400), store ++ [mkSession username token now])) ∧
    (∀ s' ∈ (verify_token store tok now).2, ∃ s ∈ store,
      s'.token = s.token ∧ s'.username = s.username ∧
      s'.expiry = s.expiry ∧ s'.created_at = s.created_at) ∧
    (delete_one_session store tok).Sublist store := by
  refine ⟨by simp only [mkSession]; norm_num [SESSION_TTL], ?_, ?_,
    List.eraseP_sublist store⟩
  · simp only [create_session]
    norm_num [SESSION_TTL]
  · intro s' h
    rcases hf : find_one_session store tok with _ | s
    · simp only [verify_token, hf] at h
      exact ⟨s', h, rfl, rfl, rfl, rfl⟩
    · simp only [verify_token, hf] at h
      by_cases hlt : s.expiry < now
      · simp only [if_pos hlt] at h
        exact ⟨s', (List.eraseP_sublist store).mem h, rfl, rfl, rfl, rfl⟩
      · simp only [if_neg hlt] at h
        exact mem_set_last_used store tok now s' h

/-- Witness for C10 at a concrete store: authenticating refreshes only
`last_used` of the stored session, whose expiry sits 86400 past creation. -/
theorem c10_session_ttl_invariant_witness :
    (mkSession "alice" "t1" 0).expiry = (mkSession "alice" "t1" 0).created_at + 86400 ∧
    ((⟨"t1", "alice", 86400, 0, 50⟩ : Session) ∈
      (verify_token [⟨"t1", "alice", 86400, 0, 0⟩] "t1" 50).2) ∧
    (∃ s ∈ [(⟨"t1", "alice", 86400, 0, 0⟩ : Session)],
      (⟨"t1", "alice", 86400, 0, 50⟩ : Session).token = s.token ∧
      (⟨"t1", "alice", 86400, 0, 50⟩ : Session).username = s.username ∧
      (⟨"t1", "alice", 86400, 0, 50⟩ : Session).expiry = s.expiry ∧
      (⟨"t1", "alice", 86400, 0, 50⟩ : Session).created_at = s.created_at) :=
  ⟨(c10_session_ttl_invariant [] "alice" "t1" "t1" 0).1,
   by decide,
   (c10_session_ttl_invariant [⟨"t1", "alice", 86400, 0, 0⟩] "alice" "t1" "t1" 50).2.2.1
     ⟨"t1", "alice", 86400, 0, 50⟩ (by decide)⟩

/-! ### Dispatcher: POST /api/channels/:id/send (server.py lines 1065-1108)

`send_message` submits `send_webhook_message(...)` onto the bot's event loop
with `asyncio.run_coroutine_threadsafe` and blocks on
`future.result(timeout=10)`: the task's value is rendered with HTTP 200; an
exception raised by the task is re-raised in the caller and — like the
`concurrent.futures.TimeoutError` raised when the bound elapses — caught by
the route's `except` clause and rendered `{'error': str(e)}` with status
500.  `str()` of the no-argument `TimeoutError` is the empty string.  The
task's fate is an input: it completes with a value after `elapsed` time
units, raises after `elapsed`, or never completes. -/

inductive TaskOutcome (α : Type) where
  | completes (elapsed : ℚ) (value : α)
  | raises (elapsed : ℚ) (exc : String)
  | never
deriving DecidableEq

inductive FutureResult (α : Type) where
  | value (v : α)
  | raised (exc : String)
  | timedOut
deriving DecidableEq

/-- Blocking wait `future.result(timeout)`: the caller gets the task's value
or raised error when it lands within the per-call bound, and a timeout
otherwise. -/
def future_result {α : Type} (outcome : TaskOutcome α) (timeout : ℚ) :
    FutureResult α :=
  match outcome with
  | .completes t v => if t ≤ timeout then .value v else .timedOut
  | .raises t e => if t ≤ timeout then .raised e else .timedOut
  | .never => .timedOut

def DISPATCH_TIMEOUT : ℚ := 10

/-- String rendering of the no-argument `concurrent.futures.TimeoutError`. -/
def strTimeoutError : String := ""

def send_message_route {α : Type} (outcome : TaskOutcome α) :
    Nat × (α ⊕ String) :=
  match future_result outcome DISPATCH_TIMEOUT with
  | .value v => (200, Sum.inl v)
  | .raised e => (500, Sum.inr e)
  | .timedOut => (500, Sum.inr strTimeoutError)

def listContainsSub (pat : List Char) : List Char → Bool
  | [] => pat.isEmpty
  | c :: rest => pat.isPrefixOf (c :: rest) || listContainsSub pat rest

/-- Whether a message names a timeout (contains "imeout", covering both
"Timeout" and "timeout"). -/
def mentionsTimeout (s : String) : Bool :=
  listContainsSub "imeout".toList s.toList

/-- Counterexample to claim C3: a send whose task outlives the bound is
answered 500 with body `{'error': ''}` — the empty `str(TimeoutError)` — so
the message does not indicate a timeout. -/
theorem c3_timeout_message_counterexample :
    send_message_route (TaskOutcome.never (α := Unit)) =
      (500, Sum.inr strTimeoutError) ∧
    strTimeoutError = "" ∧
    mentionsTimeout strTimeoutError = false := by
  refine ⟨rfl, rfl, by decide⟩

/-- Claim C3 as amended: the caller blocks until the task completes within
the bound, receiving its value as HTTP 200 or its raised error as HTTP 500;
when the bound elapses first the caller receives HTTP 500 whose error
message is `str` of the timeout exception — the empty string, distinct from
any platform failure text but not itself naming a timeout; the route's bound
is 10 time units and the underlying `future.result` bound is per-call. -/
theorem c3_dispatch_timeout {α : Type} (t timeout : ℚ) (v : α) (e : String) :
    (t ≤ DISPATCH_TIMEOUT →
      send_message_route (TaskOutcome.completes t v) = (200, Sum.inl v)) ∧
    (t ≤ DISPATCH_TIMEOUT →
      send_message_route (TaskOutcome.raises (α := α) t e) = (500, Sum.inr e)) ∧
    (DISPATCH_TIMEOUT < t →
      send_message_route (TaskOutcome.completes t v) =
        (500, Sum.inr strTimeoutError)) ∧
    send_message_route (TaskOutcome.never (α := α)) =
      (500, Sum.inr strTimeoutError) ∧
    DISPATCH_TIMEOUT = 10 ∧
    (t ≤ timeout → future_result (TaskOutcome.completes t v) timeout = .value v) ∧
    (timeout < t →
      future_result (TaskOutcome.completes t v) timeout = .timedOut) := by
  refine ⟨?_, ?_, ?_, rfl, rfl, ?_, ?_⟩
  · intro h
    simp [send_message_route, future_result, h]
  · intro h
    simp [send_message_route, future_result, h]
  · intro h
    simp [send_message_route, future_result, not_le.mpr h]
  · intro h
    simp [future_result, h]
  · intro h
    simp [future_result, not_le.mpr h]

/-- Witness for C3 with a task landing at 3 of 10 units, one landing past
the bound, and a per-call bound of 4. -/
theorem c3_dispatch_timeout_witness :
    ((3 : ℚ) ≤ DISPATCH_TIMEOUT ∧
      send_message_route (TaskOutcome.completes (3 : ℚ) (7 : Nat)) =
        (200, Sum.inl 7)) ∧
    (DISPATCH_TIMEOUT < (11 : ℚ) ∧
      send_message_route (TaskOutcome.completes (11 : ℚ) (7 : Nat)) =
        (500, Sum.inr strTimeoutError)) ∧
    ((4 : ℚ) < (5 : ℚ) ∧
      future_result (TaskOutcome.completes (5 : ℚ) (7 : Nat)) 4 = .timedOut) :=
  ⟨⟨by norm_num [DISPATCH_TIMEOUT],
    (c3_dispatch_timeout (3 : ℚ) 4 (7 : Nat) "boom").1
      (by norm_num [DISPATCH_TIMEOUT])⟩,
   ⟨by norm_num [DISPATCH_TIMEOUT],
    (c3_dispatch_timeout (11 : ℚ) 4 (7 : Nat) "boom").2.2.1
      (by norm_num [DISPATCH_TIMEOUT])⟩,
   ⟨by norm_num,
    (c3_dispatch_timeout (5 : ℚ) 4 (7 : Nat) "boom").2.2.2.2.2.2
      (by norm_num)⟩⟩

/-! ### Pending verification, users and login (server.py lines 843-942)

`verify_email` looks up the pending verification matching `(email, code)`,
answers 401 `Invalid verification code` when none matches, deletes the
record and answers 401 `Verification code expired` past `expires_at`, and
otherwise inserts the permanent user record, deletes the pending record and
opens a session.  `login_user` finds a user by username or email and answers
the same 401 `Invalid credentials` whether no user matched or the stored
hash differs from the hash of the supplied password.  Absent JSON fields
are the falsy `""`; the fresh token and the password-hash function are
inputs. -/

structure VerificationRecord where
  email : String
  username : String
  password_hash : String
  code : String
  created_at : ℚ
  expires_at : ℚ
deriving DecidableEq

structure UserRecord where
  email : String
  username : String
  password_hash : String
  created_at : ℚ
  verified : Bool
deriving DecidableEq

structure Database where
  verification_codes : List VerificationRecord
  users : List UserRecord
  sessions : SessionStore
deriving DecidableEq

structure AuthResponse where
  status : Nat
  error : Option String
  token : Option String
  username : Option String
  expires_at : Option ℚ
deriving DecidableEq

def invalidCodeResp : AuthResponse :=
  { status := 401, error := some "Invalid verification code",
    token := none, username := none, expires_at := none }

def expiredCodeResp : AuthResponse :=
  { status := 401, error := some "Verification code expired",
    token := none, username := none, expires_at := none }

def emailCodeRequiredResp : AuthResponse :=
  { status := 400, error := some "Email and code required",
    token := none, username := none, expires_at := none }

def invalidCredentialsResp : AuthResponse :=
  { status := 401, error := some "Invalid credentials",
    token := none, username := none, expires_at := none }

def loginFieldsRequiredResp : AuthResponse :=
  { status := 400, error := some "Username/email and password required",
    token := none, username := none, expires_at := none }

def findVerification (l : List VerificationRecord) (email code : String) :
    Option VerificationRecord :=
  l.find? (fun v => v.email == email && v.code == code)

def eraseVerification (l : List VerificationRecord) (email code : String) :
    List VerificationRecord :=
  l.eraseP (fun v => v.email == email && v.code == code)

def verify_email (db : Database) (email code : String) (now : ℚ)
    (newToken : String) : AuthResponse × Database :=
  if email == "" || code == "" then (emailCodeRequiredResp, db)
  else
    match findVerification db.verification_codes email code with
    | none => (invalidCodeResp, db)
    | some v =>
      if v.expires_at < now then
        (expiredCodeResp,
         { db with verification_codes :=
             eraseVerification db.verification_codes email code })
      else
        let newUser : UserRecord :=
          { email := email, username := v.username,
            password_hash := v.password_hash, created_at := now,
            verified := true }
        let cs := create_session db.sessions v.username newToken now
        ({ status := 200, error := none, token := some newToken,
           username := some v.username, expires_at := some cs.1.2 },
         { verification_codes :=
             eraseVerification db.verification_codes email code,
           users := db.users ++ [newUser],
           sessions := cs.2 })

def find_user (users : List UserRecord) (username_or_email : String) :
    Option UserRecord :=
  users.find? (fun u => u.username == username_or_email ||
    u.email == username_or_email)

def login_user (db : Database) (username_or_email password : String)
    (hash_password : String → String) (newToken : String) (now : ℚ) :
    AuthResponse × Database :=
  if username_or_email == "" || password == "" then (loginFieldsRequiredResp, db)
  else
    match find_user db.users username_or_email with
    | none => (invalidCredentialsResp, db)
    | some user =>
      if user.password_hash != hash_password password then
        (invalidCredentialsResp, db)
      else
        let cs := create_session db.sessions user.username newToken now
        ({ status := 200, error := none, token := some newToken,
           username := some user.username, expires_at := some cs.1.2 },
         { db with sessions := cs.2 })

theorem find?_eraseP_of_countP_le_one {α : Type} (p : α → Bool) (l : List α)
    (h : l.countP p ≤ 1) : (l.eraseP p).find? p = none := by
  induction l with
  | nil => rfl
  | cons a t ih =>
    by_cases pa : p a
    · rw [List.eraseP_cons_of_pos pa]
      rw [List.countP_cons_of_pos _ _ pa] at h
      have h0 : t.countP p = 0 := by omega
      rw [List.find?_eq_none]
      intro x hx
      have := List.countP_eq_zero.mp h0 x hx
      simpa using this
    · rw [List.eraseP_cons_of_neg pa, List.find?_cons_of_neg _ pa]
      rw [List.countP_cons_of_neg _ _ pa] at h
      exact ih h

theorem verify_email_invalid_of_not_found (db : Database) (email code : String)
    (now : ℚ) (tok : String) (hcond : (email == "" || code == "") = false)
    (hnone : findVerification db.verification_codes email code = none) :
    verify_email db email code now tok = (invalidCodeResp, db) := by
  simp [verify_email, hcond, hnone]

/-- Claim C6: a successful verify promotes the pending record to a
permanent user, deletes the pending record, and a second verify with the
same `(email, code)` — at any later time and with any fresh token — fails
with the 401 `Invalid verification code` error, leaving the state alone.
The hypothesis that at most one pending record matches reflects the
register/resend invariant of one live record per email. -/
theorem c6_verification_single_use (db : Database) (email code : String)
    (now now2 : ℚ) (tok tok2 : String) (v : VerificationRecord)
    (he : ¬ email = "") (hc : ¬ code = "")
    (hv : findVerification db.verification_codes email code = some v)
    (hexp : now ≤ v.expires_at)
    (huniq : db.verification_codes.countP
      (fun r => r.email == email && r.code == code) ≤ 1) :
    (verify_email db email code now tok).1.status = 200 ∧
    (verify_email db email code now tok).1.token = some tok ∧
    (verify_email db email code now tok).1.username = some v.username ∧
    ({ email := email, username := v.username,
       password_hash := v.password_hash, created_at := now,
       verified := true } : UserRecord) ∈ (verify_email db email code now tok).2.users ∧
    findVerification (verify_email db email code now tok).2.verification_codes
      email code = none ∧
    verify_email (verify_email db email code now tok).2 email code now2 tok2 =
      (invalidCodeResp, (verify_email db email code now tok).2) := by
  have hcond : (email == "" || code == "") = false := by
    simp [he, hc]
  have hnlt : ¬ v.expires_at < now := not_lt.mpr hexp
  have hgone : findVerification
      (verify_email db email code now tok).2.verification_codes email code = none := by
    simp only [verify_email, hcond, Bool.false_eq_true, if_false, hv, if_neg hnlt]
    exact find?_eraseP_of_countP_le_one _ _ huniq
  refine ⟨?_, ?_, ?_, ?_, hgone, ?_⟩
  · simp [verify_email, hcond, hv, if_neg hnlt]
  · simp [verify_email, hcond, hv, if_neg hnlt]
  · simp [verify_email, hcond, hv, if_neg hnlt]
  · simp [verify_email, hcond, hv, if_neg hnlt]
  · exact verify_email_invalid_of_not_found _ email code now2 tok2 hcond hgone

/-- Witness for C6: a concrete pending record verified at time 10 with a
15-minute expiry, then resubmitted at time 20. -/
theorem c6_verification_single_use_witness :
    ¬ ("a@x.com" : String) = "" ∧
    ¬ ("123456" : String) = "" ∧
    findVerification [⟨"a@x.com", "alice", "h1", "123456", 0, 900⟩]
      "a@x.com" "123456" = some ⟨"a@x.com", "alice", "h1", "123456", 0, 900⟩ ∧
    ((10 : ℚ) ≤ 900) ∧
    (verify_email ⟨[⟨"a@x.com", "alice", "h1", "123456", 0, 900⟩], [], []⟩
      "a@x.com" "123456" 10 "t9").1.status = 200 ∧
    verify_email (verify_email ⟨[⟨"a@x.com", "alice", "h1", "123456", 0, 900⟩], [], []⟩
        "a@x.com" "123456" 10 "t9").2 "a@x.com" "123456" 20 "t10" =
      (invalidCodeResp,
       (verify_email ⟨[⟨"a@x.com", "alice", "h1", "123456", 0, 900⟩], [], []⟩
         "a@x.com" "123456" 10 "t9").2) :=
  ⟨by decide, by decide, by decide, by norm_num,
   (c6_verification_single_use
     ⟨[⟨"a@x.com", "alice", "h1", "123456", 0, 900⟩], [], []⟩
     "a@x.com" "123456" 10 20 "t9" "t10"
     ⟨"a@x.com", "alice", "h1", "123456", 0, 900⟩
     (by decide) (by decide) (by decide) (by norm_num) (by decide)).1,
   (c6_verification_single_use
     ⟨[⟨"a@x.com", "alice", "h1", "123456", 0, 900⟩], [], []⟩
     "a@x.com" "123456" 10 20 "t9" "t10"
     ⟨"a@x.com", "alice", "h1", "123456", 0, 900⟩
     (by decide) (by decide) (by decide) (by norm_num) (by decide)).2.2.2.2.2⟩

/-- Claim C9: against one store state and one supplied password, a login
naming a nonexistent user and a login naming an existing user whose stored
hash does not match produce identical results — the same 401
`Invalid credentials` response and an unchanged store — so the caller
cannot distinguish "no such user" from "wrong password". -/
theorem c9_login_no_user_enumeration (db : Database) (u1 u2 password : String)
    (hash_password : String → String) (tok : String) (now : ℚ)
    (usr : UserRecord)
    (h1 : ¬ u1 = "") (h2 : ¬ u2 = "") (hp : ¬ password = "")
    (hf1 : find_user db.users u1 = none)
    (hf2 : find_user db.users u2 = some usr)
    (hmism : usr.password_hash ≠ hash_password password) :
    login_user db u1 password hash_password tok now =
      login_user db u2 password hash_password tok now ∧
    login_user db u1 password hash_password tok now =
      (invalidCredentialsResp, db) := by
  have hc1 : (u1 == "" || password == "") = false := by simp [h1, hp]
  have hc2 : (u2 == "" || password == "") = false := by simp [h2, hp]
  have hbne : (usr.password_hash != hash_password password) = true := by
    simpa using hmism
  have e1 : login_user db u1 password hash_password tok now =
      (invalidCredentialsResp, db) := by
    simp [login_user, hc1, hf1]
  have e2 : login_user db u2 password hash_password tok now =
      (invalidCredentialsResp, db) := by
    simp [login_user, hc2, hf2, hbne]
  exact ⟨e1.trans e2.symm, e1⟩

/-- Witness for C9: a store holding only alice (hash "h1"), the identity
hash function, password "pw", and the unknown name "bob". -/
theorem c9_login_no_user_enumeration_witness :
    find_user [⟨"a@x.com", "alice", "h1", 0, true⟩] "bob" = none ∧
    find_user [⟨"a@x.com", "alice", "h1", 0, true⟩] "alice" =
      some ⟨"a@x.com", "alice", "h1", 0, true⟩ ∧
    ("h1" : String) ≠ (fun p : String => p) "pw" ∧
    login_user ⟨[], [⟨"a@x.com", "alice", "h1", 0, true⟩], []⟩ "bob" "pw"
        (fun p => p) "t" 0 =
      login_user ⟨[], [⟨"a@x.com", "alice", "h1", 0, true⟩], []⟩ "alice" "pw"
        (fun p => p) "t" 0 ∧
    login_user ⟨[], [⟨"a@x.com", "alice", "h1", 0, true⟩], []⟩ "bob" "pw"
        (fun p => p) "t" 0 =
      (invalidCredentialsResp, ⟨[], [⟨"a@x.com", "alice", "h1", 0, true⟩], []⟩) :=
  ⟨by decide, by decide, by decide,
   (c9_login_no_user_enumeration ⟨[], [⟨"a@x.com", "alice", "h1", 0, true⟩], []⟩
     "bob" "alice" "pw" (fun p => p) "t" 0 ⟨"a@x.com", "alice", "h1", 0, true⟩
     (by decide) (by decide) (by decide) (by decide) (by decide) (by decide)).1,
   (c9_login_no_user_enumeration ⟨[], [⟨"a@x.com", "alice", "h1", 0, true⟩], []⟩
     "bob" "alice" "pw" (fun p => p) "t" 0 ⟨"a@x.com", "alice", "h1", 0, true⟩
     (by decide) (by decide) (by decide) (by decide) (by decide) (by decide)).2⟩

end NullChat
